import Mathlib

/-!
Shallow embedding of `src/backup/backup-to-s3.py` (an S3 backup uploader).

The script's per-file worker `_upload_file` interacts with the outside world
through a fixed sequence of fallible operations (local `stat`, S3 `head_object`,
`upload_file`, `delete_object`, local `unlink`, and the hashing/metadata reads
inside `_verify_upload`).  Each run of the worker is determined by the outcomes
of those operations, so we model one worker execution as a pure function of an
oracle (`WorkerEnv`) recording those outcomes, and we record the calls the
worker performs as a trace of `Effect`s.  The orchestrator `run_backup` is the
fold of the worker over the candidate list, with its `try/except` around
`future.result()` modelled by continuing the fold when the worker raises.
-/

namespace BackupToS3

/-- The `self.stats` dictionary initialised in `S3BackupManager.__init__`
(lines 105-111): counters `uploaded`, `skipped`, `failed`, `deleted`,
`total_bytes`. -/
structure Stats where
  uploaded : Nat
  skipped : Nat
  failed : Nat
  deleted : Nat
  total_bytes : Nat
deriving DecidableEq

/-- The all-zero statistics the manager starts with. -/
def Stats.init : Stats := ⟨0, 0, 0, 0, 0⟩

/-- The metadata returned by a successful `head_object` call inside
`_verify_upload` (lines 165-174): the raw `ETag` string and `ContentLength`. -/
structure HeadMeta where
  etag : String
  contentLength : Nat
deriving DecidableEq

/-- Python `s.strip` with the double-quote character (line 169,
`response['ETag'].strip`): remove every leading and every trailing
double-quote character. -/
def stripQuotes (s : String) : String :=
  String.mk (((s.data.dropWhile fun c => c == '"').reverse.dropWhile
    fun c => c == '"').reverse)

/-- Python `c in s` membership test on a string (line 172). -/
def strContains (s : String) (c : Char) : Bool :=
  decide (c ∈ s.data)

/-- Oracle for one execution of `_verify_upload` (lines 159-188):
`localHash` is the MD5 digest computed by `_calculate_file_hash`
(`none` when hashing raised), `localSize` is `file_path.stat().st_size`
at line 173 (`none` when that `stat` raised), `headMeta` is the
`head_object` response (`none` when the call raised). -/
structure VerifyEnv where
  localHash : Option String
  localSize : Option Nat
  headMeta : Option HeadMeta
deriving DecidableEq

/-- `_verify_upload` (lines 159-188).  The whole body is wrapped in
`try/except Exception: return False`, so every failed operation yields the
verdict `false`.  On success of both the hashing and the metadata fetch, the
etag is stripped of quotes; a hyphen in it selects the multipart size
comparison (lines 172-178), otherwise the MD5 digest is compared to the etag
(line 181). -/
def verify_upload (env : VerifyEnv) : Bool :=
  match env.localHash with
  | none => false
  | some local_md5 =>
    match env.headMeta with
    | none => false
    | some m =>
      let s3_etag := stripQuotes m.etag
      if strContains s3_etag '-' then
        match env.localSize with
        | none => false
        | some local_size => local_size == m.contentLength
      else
        local_md5 == s3_etag

/-- Modelled from the spec: the verifier the specification describes, whose
only exception path is a transport error while querying remote metadata,
"which propagate as `StoreError`" instead of becoming a `false` verdict.
Used only to compare the specified behaviour with `verify_upload`. -/
def verify_upload_specModel (env : VerifyEnv) : Except Unit Bool :=
  match env.headMeta with
  | none => Except.error ()
  | some m =>
    let s3_etag := stripQuotes m.etag
    if strContains s3_etag '-' then
      Except.ok (env.localSize == some m.contentLength)
    else
      Except.ok (env.localHash == some s3_etag)

/-- A candidate file as the worker sees it: `file_path.name` and
`file_path.stat().st_size` (lines 195-196). -/
structure FileInfo where
  name : String
  size : Nat
deriving DecidableEq

/-- The three outcomes of `_file_exists_in_s3` (lines 141-157): the object is
present (`found`), `head_object` raised a 404 so the object is absent
(`notFound`), or `head_object` raised some other `ClientError`, which
`_file_exists_in_s3` logs and re-raises (`raiseErr`). -/
inductive ExistsRes where
  | found
  | notFound
  | raiseErr
deriving DecidableEq

/-- Oracle for one execution of `_upload_file` (lines 190-260): the outcome of
every external operation the worker may perform, in program order.
`statOk` is the `file_path.stat()` at line 196, which runs before the `try`
block, so its exception escapes the worker.  `uploadOk` is the
`s3_client.upload_file` call, `deleteRemoteOk` the `delete_object` cleanup at
line 238, `unlinkOk` the local `file_path.unlink()` at line 247. -/
structure WorkerEnv where
  statOk : Bool
  existsRes : ExistsRes
  uploadOk : Bool
  verifyEnv : VerifyEnv
  deleteRemoteOk : Bool
  unlinkOk : Bool
deriving DecidableEq

/-- The external calls the worker performs, recorded in order.  `statLocal`
and `readLocal` are read-only local-filesystem operations, `headObject` is the
read-only store existence/metadata query; `upload`, `deleteRemote` and
`unlinkLocal` are the mutating operations. -/
inductive Effect where
  | statLocal (name : String)
  | headObject (key : String)
  | readLocal (name : String)
  | upload (key : String)
  | deleteRemote (key : String)
  | unlinkLocal (name : String)
deriving DecidableEq

/-- Whether an effect mutates the store or the local filesystem. -/
def Effect.mutating : Effect → Bool
  | .upload _ => true
  | .deleteRemote _ => true
  | .unlinkLocal _ => true
  | _ => false

/-- How one worker execution ends: the returned boolean (`ok`), or an
exception escaping the worker (`raised`), which in the source can only happen
at the line-196 `stat` since everything later sits inside the
`try/except ClientError/except Exception` block. -/
inductive WorkerResult where
  | ok (b : Bool)
  | raised
deriving DecidableEq

/-- Result of one worker execution: the classification, the statistics after
the worker's own `self.stats` updates, and the trace of external calls. -/
structure WorkerOut where
  result : WorkerResult
  stats : Stats
  trace : List Effect
deriving DecidableEq

/-- The external calls `_verify_upload` performs: hash the local file
(lines 136-138), fetch the remote metadata (line 165), and in the multipart
branch re-`stat` the local file (line 173). -/
def verifyTrace (name : String) (env : VerifyEnv) : List Effect :=
  match env.localHash with
  | none => [.readLocal name]
  | some _ =>
    match env.headMeta with
    | none => [.readLocal name, .headObject name]
    | some m =>
      if strContains (stripQuotes m.etag) '-' then
        [.readLocal name, .headObject name, .statLocal name]
      else
        [.readLocal name, .headObject name]

/-- `_upload_file` (lines 190-260), as a function of the oracle.  Program
order: `stat` (line 196, outside the `try`); existence check (a non-404 error
re-raises and is caught by `except ClientError`, adding to `failed`);
the dry-run early return (line 206, reached only when the file is absent
remotely); the upload (failures are caught by either `except` arm, adding to
`failed`); verification, whose failure triggers the best-effort
`delete_object` and returns `False` with no counter change unless the cleanup
itself raises (then `failed` is incremented by the `except` arm); on verified
success `uploaded` and `total_bytes` are bumped, and when
`delete_after_upload` is set the local file is unlinked (`deleted` is bumped
after the unlink; an unlink failure falls into `except Exception`, bumping
`failed` on top of the already-bumped `uploaded`). -/
def upload_file (delete_after_upload : Bool) (f : FileInfo) (dry_run : Bool)
    (env : WorkerEnv) (st : Stats) : WorkerOut :=
  if env.statOk = false then
    ⟨.raised, st, [.statLocal f.name]⟩
  else
    match env.existsRes with
    | .found =>
        ⟨.ok false, { st with skipped := st.skipped + 1 },
          [.statLocal f.name, .headObject f.name]⟩
    | .raiseErr =>
        ⟨.ok false, { st with failed := st.failed + 1 },
          [.statLocal f.name, .headObject f.name]⟩
    | .notFound =>
      if dry_run then
        ⟨.ok false, st, [.statLocal f.name, .headObject f.name]⟩
      else if env.uploadOk = false then
        ⟨.ok false, { st with failed := st.failed + 1 },
          [.statLocal f.name, .headObject f.name, .upload f.name]⟩
      else
        let preTrace := [Effect.statLocal f.name, Effect.headObject f.name,
          Effect.upload f.name] ++ verifyTrace f.name env.verifyEnv
        if verify_upload env.verifyEnv = false then
          if env.deleteRemoteOk then
            ⟨.ok false, st, preTrace ++ [.deleteRemote f.name]⟩
          else
            ⟨.ok false, { st with failed := st.failed + 1 },
              preTrace ++ [.deleteRemote f.name]⟩
        else
          let st1 := { st with uploaded := st.uploaded + 1, total_bytes := st.total_bytes + f.size }
          if delete_after_upload then
            if env.unlinkOk then
              ⟨.ok true, { st1 with deleted := st1.deleted + 1 },
                preTrace ++ [.unlinkLocal f.name]⟩
            else
              ⟨.ok false, { st1 with failed := st1.failed + 1 },
                preTrace ++ [.unlinkLocal f.name]⟩
          else
            ⟨.ok true, st1, preTrace⟩

/-- The orchestrator's handling of one completed future (lines 308-313):
`future.result()` re-raises a worker exception, which is caught and logged
without touching any counter, so the statistics after the step are exactly
those the worker left behind. -/
def processOne (delete_after_upload dry_run : Bool) (st : Stats)
    (fw : FileInfo × WorkerEnv) : Stats :=
  (upload_file delete_after_upload fw.1 dry_run fw.2 st).stats

/-- `run_backup` (lines 281-325) on a given candidate list: process every
candidate starting from the freshly initialised statistics, and report
success as `failed == 0`. -/
def run_backup (delete_after_upload dry_run : Bool)
    (files : List (FileInfo × WorkerEnv)) : Stats × Bool :=
  let final := files.foldl (processOne delete_after_upload dry_run) Stats.init
  (final, final.failed == 0)

/-- The sizes of the files whose processing incremented `uploaded`, in
processing order, threading the statistics exactly as the run does. -/
def uploadedSizes (delete_after_upload dry_run : Bool) :
    List (FileInfo × WorkerEnv) → Stats → List Nat
  | [], _ => []
  | fw :: rest, st =>
      let st2 := processOne delete_after_upload dry_run st fw
      (if st.uploaded < st2.uploaded then [fw.1.size] else []) ++
        uploadedSizes delete_after_upload dry_run rest st2

/-- The six statistics updates a single worker execution can make: no change,
a skip, a failure, a verified upload without local deletion, a verified upload
with local deletion, and a verified upload whose local unlink then raised
(bumping `failed` on top of `uploaded`). -/
def StatsDeltaOK (f : FileInfo) (st st2 : Stats) : Prop :=
  st2 = st ∨
  st2 = { st with skipped := st.skipped + 1 } ∨
  st2 = { st with failed := st.failed + 1 } ∨
  st2 = { st with uploaded := st.uploaded + 1, total_bytes := st.total_bytes + f.size } ∨
  st2 = { st with uploaded := st.uploaded + 1, total_bytes := st.total_bytes + f.size, deleted := st.deleted + 1 } ∨
  st2 = { st with uploaded := st.uploaded + 1, total_bytes := st.total_bytes + f.size, failed := st.failed + 1 }

/-- How many of the counters `uploaded`, `skipped`, `failed` grew between two
statistics values. -/
def incCount (st st2 : Stats) : Nat :=
  (if st.uploaded < st2.uploaded then 1 else 0) +
  (if st.skipped < st2.skipped then 1 else 0) +
  (if st.failed < st2.failed then 1 else 0)

/-- A directory entry as `get_files_for_backup` sees it: the file name, the
`is_file()` verdict, and the `st_ctime` creation timestamp (modelled in whole
seconds). -/
structure DirEntry where
  name : String
  isFile : Bool
  ctime : Int
deriving DecidableEq

/-- Index of the last dot in a list of characters, if any. -/
def lastDotIdx : List Char → Option Nat
  | [] => none
  | c :: cs =>
    match lastDotIdx cs with
    | some j => some (j + 1)
    | none => if c == '.' then some 0 else none

/-- `pathlib.Path.suffix`: the substring from the last dot on, provided that
dot is neither the first nor the last character of the name; empty otherwise. -/
def pathSuffix (name : String) : String :=
  match lastDotIdx name.data with
  | none => ""
  | some i =>
    if 0 < i ∧ i + 1 < name.data.length then String.mk (name.data.drop i)
    else ""

/-- Insert an entry into a list sorted by ascending `ctime`. -/
def insertByCtime (e : DirEntry) : List DirEntry → List DirEntry
  | [] => [e]
  | x :: xs => if e.ctime ≤ x.ctime then e :: x :: xs else x :: insertByCtime e xs

/-- `sorted(files_for_backup, key=st_ctime)` (line 279), as insertion sort by
ascending creation time. -/
def sortByCtime : List DirEntry → List DirEntry
  | [] => []
  | x :: xs => insertByCtime x (sortByCtime xs)

/-- `get_files_for_backup` (lines 262-279): empty when the directory does not
exist; otherwise keep the entries that are regular files, whose
`Path.suffix` is in the configured extension tuple (case-sensitive), and
whose creation time is at least `now - day_delta` days (`create_date >=
cutoff_date`, line 276 — there is no upper bound); return them sorted by
ascending creation time.  One day is 86400 seconds, as in `timedelta`. -/
def get_files_for_backup (dirExists : Bool) (entries : List DirEntry)
    (extensions : List String) (now day_delta : Int) : List DirEntry :=
  if dirExists = false then []
  else
    let cutoff := now - day_delta * 86400
    sortByCtime (entries.filter fun e =>
      e.isFile && decide (pathSuffix e.name ∈ extensions) &&
        decide (cutoff ≤ e.ctime))

/-! ### Helper lemmas -/

/-- Dropping leading quote characters does not change whether a hyphen occurs. -/
theorem mem_dropWhile_quote (l : List Char) :
    ('-' ∈ l.dropWhile fun c => c == '"') ↔ '-' ∈ l := by
  induction l with
  | nil => simp
  | cons a l ih =>
    by_cases h : a = '"'
    · subst h
      have h1 : (('"' :: l).dropWhile fun c => c == '"') =
          l.dropWhile fun c => c == '"' := by
        simp [List.dropWhile]
      rw [h1, ih, List.mem_cons]
      have h2 : ('-' : Char) ≠ '"' := by decide
      tauto
    · have hb : (a == '"') = false := beq_eq_false_iff_ne.mpr h
      have h1 : ((a :: l).dropWhile fun c => c == '"') = a :: l := by
        simp [List.dropWhile, hb]
      rw [h1]

/-- Stripping surrounding quotes does not change whether the etag contains a
hyphen, since only quote characters are removed. -/
theorem stripQuotes_hyphen (s : String) :
    strContains (stripQuotes s) '-' = strContains s '-' := by
  unfold strContains stripQuotes
  simp only [decide_eq_decide]
  show '-' ∈ _ ↔ _
  rw [List.mem_reverse, mem_dropWhile_quote, List.mem_reverse, mem_dropWhile_quote]

/-- The verifier never touches the local file beyond reads: its trace contains
no `unlinkLocal` effect. -/
theorem unlinkLocal_not_mem_verifyTrace (a b : String) (env : VerifyEnv) :
    Effect.unlinkLocal a ∉ verifyTrace b env := by
  rcases env with ⟨lh, ls, hm⟩
  cases lh <;> cases hm <;> simp only [verifyTrace] <;> try split
  all_goals simp

/-- An exception escapes the worker exactly when the initial `stat` raises;
every later error is caught inside `_upload_file` and classified. -/
theorem upload_file_raised_iff (dA dry : Bool) (f : FileInfo) (env : WorkerEnv)
    (st : Stats) :
    (upload_file dA f dry env st).result = WorkerResult.raised ↔
      env.statOk = false := by
  rcases env with ⟨sOk, eRes, uOk, vEnv, dOk, ulOk⟩
  cases sOk <;> cases eRes <;> cases dry <;> cases uOk <;> cases dA <;>
    cases dOk <;> cases ulOk <;> cases hv : verify_upload vEnv <;>
    simp [upload_file, hv]

/-- Every worker execution performs one of the six statistics updates listed
in `StatsDeltaOK`. -/
theorem upload_file_delta (dA dry : Bool) (f : FileInfo) (env : WorkerEnv)
    (st : Stats) :
    StatsDeltaOK f st (upload_file dA f dry env st).stats := by
  rcases env with ⟨sOk, eRes, uOk, vEnv, dOk, ulOk⟩
  unfold StatsDeltaOK
  cases sOk <;> cases eRes <;> cases dry <;> cases uOk <;> cases dA <;>
    cases dOk <;> cases ulOk <;> cases hv : verify_upload vEnv <;>
    simp [upload_file, hv]

/-- Folding the run over any candidate list preserves `deleted ≤ uploaded`. -/
theorem foldl_deleted_le (dA dry : Bool) (files : List (FileInfo × WorkerEnv)) :
    ∀ st : Stats, st.deleted ≤ st.uploaded →
      (files.foldl (processOne dA dry) st).deleted ≤
        (files.foldl (processOne dA dry) st).uploaded := by
  induction files with
  | nil => intro st h; simpa using h
  | cons fw rest ih =>
    intro st h
    rw [List.foldl_cons]
    apply ih
    rcases upload_file_delta dA dry fw.1 fw.2 st with h1|h1|h1|h1|h1|h1 <;>
      simp [processOne, h1] <;> omega

/-- The run's `total_bytes` grows by exactly the sizes of the files whose
processing incremented `uploaded`. -/
theorem foldl_total_bytes (dA dry : Bool) (files : List (FileInfo × WorkerEnv)) :
    ∀ st : Stats,
      (files.foldl (processOne dA dry) st).total_bytes =
        st.total_bytes + (uploadedSizes dA dry files st).sum := by
  induction files with
  | nil => intro st; simp [uploadedSizes]
  | cons fw rest ih =>
    intro st
    rw [List.foldl_cons]
    simp only [uploadedSizes]
    rw [ih]
    rcases upload_file_delta dA dry fw.1 fw.2 st with h1|h1|h1|h1|h1|h1 <;>
      simp [processOne, h1, Nat.lt_irrefl, Nat.lt_succ_self] <;> omega

/-- Membership in an insertion step. -/
theorem mem_insertByCtime (e x : DirEntry) (l : List DirEntry) :
    x ∈ insertByCtime e l ↔ x = e ∨ x ∈ l := by
  induction l with
  | nil => simp [insertByCtime]
  | cons a l ih =>
    simp only [insertByCtime]
    split
    · simp
    · simp [ih]
      tauto

/-- Sorting by creation time neither adds nor removes entries. -/
theorem mem_sortByCtime (x : DirEntry) (l : List DirEntry) :
    x ∈ sortByCtime l ↔ x ∈ l := by
  induction l with
  | nil => simp [sortByCtime]
  | cons a l ih =>
    simp [sortByCtime, mem_insertByCtime, ih]

/-! ### Claim theorems -/

/-- Claim C1, counterexample: one candidate whose upload completes (the
`upload` effect is in the trace) and whose verification returns false, with a
successful remote cleanup.  The run ends with every counter still zero — in
particular `failed = 0` — and `run_backup` reports overall success `true`,
contradicting the claim that a verification failure increments `failed` and
falsifies run success. -/
theorem verification_failure_not_counted_cex :
    verify_upload ⟨some "aaa", some 5, some ⟨"bbb", 5⟩⟩ = false ∧
    Effect.upload "f.gz" ∈ (upload_file true ⟨"f.gz", 5⟩ false
      ⟨true, ExistsRes.notFound, true, ⟨some "aaa", some 5, some ⟨"bbb", 5⟩⟩,
        true, true⟩ Stats.init).trace ∧
    run_backup true false [(⟨"f.gz", 5⟩,
      ⟨true, ExistsRes.notFound, true, ⟨some "aaa", some 5, some ⟨"bbb", 5⟩⟩,
        true, true⟩)] = (Stats.init, true) := by
  decide

/-- Claim C1 (amended): when a candidate's transfer completes but
verification returns false, the worker returns the failure verdict `False`
and changes no counter at all if the best-effort remote cleanup succeeds
(`failed` is incremented only when the cleanup itself raises); a verification
failure therefore leaves `failed`, and with it overall run success, unchanged. -/
theorem verification_failure_stats (dA : Bool) (f : FileInfo) (env : WorkerEnv)
    (st : Stats) (hs : env.statOk = true) (he : env.existsRes = ExistsRes.notFound)
    (hu : env.uploadOk = true) (hv : verify_upload env.verifyEnv = false) :
    (upload_file dA f false env st).result = WorkerResult.ok false ∧
    (upload_file dA f false env st).stats =
      (if env.deleteRemoteOk then st else { st with failed := st.failed + 1 }) := by
  rcases env with ⟨sOk, eRes, uOk, vEnv, dOk, ulOk⟩
  subst hs
  subst he
  subst hu
  cases dOk <;> simp [upload_file, hv]

/-- Witness for the amended claim C1 at a concrete mismatching digest. -/
theorem verification_failure_stats_witness :
    (upload_file true ⟨"v.gz", 7⟩ false
      ⟨true, ExistsRes.notFound, true, ⟨some "aaa", some 7, some ⟨"bbb", 7⟩⟩,
        true, true⟩ Stats.init).result = WorkerResult.ok false ∧
    (upload_file true ⟨"v.gz", 7⟩ false
      ⟨true, ExistsRes.notFound, true, ⟨some "aaa", some 7, some ⟨"bbb", 7⟩⟩,
        true, true⟩ Stats.init).stats = Stats.init :=
  verification_failure_stats true ⟨"v.gz", 7⟩
    ⟨true, ExistsRes.notFound, true, ⟨some "aaa", some 7, some ⟨"bbb", 7⟩⟩,
      true, true⟩ Stats.init rfl rfl rfl (by decide)

/-- Claim C2, counterexample: a single worker execution (a skip of an
already-present key) changes the statistics by itself, so the per-file worker
does write statistics counters directly, contrary to the claim. -/
theorem worker_mutates_stats_cex :
    (upload_file true ⟨"s.gz", 5⟩ false
      ⟨true, ExistsRes.found, true, ⟨none, none, none⟩, true, true⟩
      Stats.init).stats ≠ Stats.init := by
  decide

/-- Claim C2 (amended): the statistics are written only inside the per-file
worker `_upload_file`; the orchestrator's result-collection step passes the
worker's statistics through unchanged, and when a worker raises (escaping
before any update) the orchestrator's handler also leaves the statistics
exactly as they were. -/
theorem stats_written_only_by_worker (dA dry : Bool) (f : FileInfo)
    (env : WorkerEnv) (st : Stats) :
    processOne dA dry st (f, env) = (upload_file dA f dry env st).stats ∧
    ((upload_file dA f dry env st).result = WorkerResult.raised →
      processOne dA dry st (f, env) = st) := by
  refine ⟨rfl, fun hr => ?_⟩
  have hs : env.statOk = false := (upload_file_raised_iff dA dry f env st).mp hr
  rcases env with ⟨sOk, eRes, uOk, vEnv, dOk, ulOk⟩
  subst hs
  simp [processOne, upload_file]

/-- Witness for the amended claim C2 at a worker whose initial stat raises. -/
theorem stats_written_only_by_worker_witness :
    processOne true false Stats.init (⟨"w2.gz", 3⟩,
      ⟨false, ExistsRes.notFound, true, ⟨none, none, none⟩, true, true⟩) =
      Stats.init :=
  (stats_written_only_by_worker true false ⟨"w2.gz", 3⟩
    ⟨false, ExistsRes.notFound, true, ⟨none, none, none⟩, true, true⟩
    Stats.init).2 rfl

/-- Claim C3, counterexample: a run with two candidates where the first
worker's exception escapes classification (its `stat` raises).  The escaped
fault is caught and the second candidate is still fully processed
(`uploaded = 1`, `deleted = 1`), but the final `failed` counter is `0`: the
fault was not counted as a failure, contrary to the claim. -/
theorem orchestrator_fault_not_counted_cex :
    (upload_file true ⟨"a.gz", 3⟩ false
      ⟨false, ExistsRes.notFound, true, ⟨none, none, none⟩, true, true⟩
      Stats.init).result = WorkerResult.raised ∧
    (run_backup true false
      [(⟨"a.gz", 3⟩, ⟨false, ExistsRes.notFound, true, ⟨none, none, none⟩,
          true, true⟩),
       (⟨"b.gz", 4⟩, ⟨true, ExistsRes.notFound, true,
          ⟨some "h", some 4, some ⟨"h", 4⟩⟩, true, true⟩)]).1 =
      ⟨1, 0, 0, 1, 4⟩ := by
  decide

/-- Claim C3 (amended): an exception escaping a worker's own classification is
caught at the orchestrator layer and never aborts the remaining candidates —
the run over the remaining list proceeds exactly as if the faulty candidate
were absent — but it is NOT counted in any statistics counter: the statistics
are left unchanged by the faulty candidate. -/
theorem orchestrator_fault_isolated (dA dry : Bool) (f : FileInfo)
    (env : WorkerEnv) (rest : List (FileInfo × WorkerEnv)) (st : Stats)
    (h : env.statOk = false) :
    (upload_file dA f dry env st).result = WorkerResult.raised ∧
    List.foldl (processOne dA dry) st ((f, env) :: rest) =
      List.foldl (processOne dA dry) st rest := by
  constructor
  · exact (upload_file_raised_iff dA dry f env st).mpr h
  · rw [List.foldl_cons]
    congr 1
    simp [processOne, upload_file, h]

/-- Witness for the amended claim C3 at a concrete raising worker. -/
theorem orchestrator_fault_isolated_witness :
    (upload_file true ⟨"a3.gz", 3⟩ false
      ⟨false, ExistsRes.notFound, true, ⟨none, none, none⟩, true, true⟩
      Stats.init).result = WorkerResult.raised ∧
    List.foldl (processOne true false) Stats.init
      [(⟨"a3.gz", 3⟩, ⟨false, ExistsRes.notFound, true, ⟨none, none, none⟩,
          true, true⟩)] =
      List.foldl (processOne true false) Stats.init [] :=
  orchestrator_fault_isolated true false ⟨"a3.gz", 3⟩
    ⟨false, ExistsRes.notFound, true, ⟨none, none, none⟩, true, true⟩ []
    Stats.init rfl

/-- Claim C4, counterexample: on a transport error while querying remote
metadata (the `head_object` call raised, `headMeta = none`), the verifier the
spec describes propagates an error, but `_verify_upload`'s
`except Exception: return False` converts it into the verdict `false`. -/
theorem verify_upload_error_propagation_cex :
    verify_upload_specModel ⟨some "abc", some 1, none⟩ = Except.error () ∧
    verify_upload ⟨some "abc", some 1, none⟩ = false :=
  ⟨rfl, rfl⟩

/-- Claim C4 (amended): the verifier always returns a boolean verdict and has
no exception path at all — a transport error while querying remote metadata
(and likewise a failure reading the local file for hashing) is converted into
the `false` (not-verified) verdict instead of propagating. -/
theorem verify_upload_error_yields_false (env : VerifyEnv)
    (h : env.headMeta = none ∨ env.localHash = none) :
    verify_upload env = false := by
  rcases env with ⟨lh, ls, hm⟩
  rcases h with h | h
  · subst h
    cases lh <;> rfl
  · subst h
    rfl

/-- Witness for the amended claim C4 at a failed local hash. -/
theorem verify_upload_error_yields_false_witness :
    verify_upload ⟨none, some 2, some ⟨"ee", 2⟩⟩ = false :=
  verify_upload_error_yields_false ⟨none, some 2, some ⟨"ee", 2⟩⟩ (Or.inr rfl)

/-- Claim C5: when the local hash, local size and remote metadata are all
available, the verifier returns true iff the local size equals the remote
content length when the remote etag contains a hyphen, and iff the local MD5
digest equals the quote-stripped etag otherwise. -/
theorem verify_upload_decision_rule (local_md5 : String) (m : HeadMeta)
    (sz : Nat) :
    (strContains m.etag '-' = true →
      (verify_upload ⟨some local_md5, some sz, some m⟩ = true ↔
        sz = m.contentLength)) ∧
    (strContains m.etag '-' = false →
      (verify_upload ⟨some local_md5, some sz, some m⟩ = true ↔
        local_md5 = stripQuotes m.etag)) := by
  have hq := stripQuotes_hyphen m.etag
  constructor <;> intro hc <;> simp [verify_upload, hq, hc, beq_iff_eq]

/-- Witness for claim C5 on a concrete multipart-style etag. -/
theorem verify_upload_decision_rule_witness :
    verify_upload ⟨some "abc", some 5, some ⟨"x-y", 5⟩⟩ = true :=
  ((verify_upload_decision_rule "abc" ⟨"x-y", 5⟩ 5).1 (by decide)).mpr rfl

/-- Claim C6, counterexample: with `delete_after_upload` disabled, a verified
successful upload performs no local deletion, so "local deletion occurs iff
verification returned true" fails in the only-if-to-if direction. -/
theorem unlink_gating_cex :
    verify_upload ⟨some "h", some 5, some ⟨"h", 5⟩⟩ = true ∧
    Effect.unlinkLocal "f.gz" ∉ (upload_file false ⟨"f.gz", 5⟩ false
      ⟨true, ExistsRes.notFound, true, ⟨some "h", some 5, some ⟨"h", 5⟩⟩,
        true, true⟩ Stats.init).trace := by
  decide

/-- Claim C6 (amended): the worker attempts the local deletion iff the
candidate reached verification (stat succeeded, the key was absent remotely,
not a dry run, the upload succeeded), verification returned true, AND the
`delete_after_upload` configuration flag is set.  In particular a failed
verification always leaves the local file intact, and local deletion never
precedes confirmed remote durability. -/
theorem unlink_gating (dA dry : Bool) (f : FileInfo) (env : WorkerEnv)
    (st : Stats) :
    (Effect.unlinkLocal f.name ∈ (upload_file dA f dry env st).trace) ↔
      (env.statOk = true ∧ env.existsRes = ExistsRes.notFound ∧ dry = false ∧
        env.uploadOk = true ∧ verify_upload env.verifyEnv = true ∧
        dA = true) := by
  rcases env with ⟨sOk, eRes, uOk, vEnv, dOk, ulOk⟩
  cases sOk <;> cases eRes <;> cases dry <;> cases uOk <;> cases dA <;>
    cases dOk <;> cases ulOk <;> cases hv : verify_upload vEnv <;>
    simp [upload_file, hv, unlinkLocal_not_mem_verifyTrace]

/-- Claim C7: when the remote key already exists, the worker performs exactly
the local stat and the read-only existence check (so no upload and no
overwrite), counts the file as skipped, leaves the failure counter unchanged,
and returns the skip verdict. -/
theorem skip_existing (dA dry : Bool) (f : FileInfo) (env : WorkerEnv)
    (st : Stats) (hs : env.statOk = true) (he : env.existsRes = ExistsRes.found) :
    (upload_file dA f dry env st).result = WorkerResult.ok false ∧
    (upload_file dA f dry env st).stats =
      { st with skipped := st.skipped + 1 } ∧
    (upload_file dA f dry env st).stats.failed = st.failed ∧
    (upload_file dA f dry env st).trace =
      [Effect.statLocal f.name, Effect.headObject f.name] := by
  rcases env with ⟨sOk, eRes, uOk, vEnv, dOk, ulOk⟩
  subst hs
  subst he
  simp [upload_file]

/-- Witness for claim C7 at a concrete already-present key. -/
theorem skip_existing_witness :
    (upload_file true ⟨"w.gz", 9⟩ false
      ⟨true, ExistsRes.found, true, ⟨none, none, none⟩, true, true⟩
      Stats.init).result = WorkerResult.ok false ∧
    (upload_file true ⟨"w.gz", 9⟩ false
      ⟨true, ExistsRes.found, true, ⟨none, none, none⟩, true, true⟩
      Stats.init).stats = { Stats.init with skipped := Stats.init.skipped + 1 } ∧
    (upload_file true ⟨"w.gz", 9⟩ false
      ⟨true, ExistsRes.found, true, ⟨none, none, none⟩, true, true⟩
      Stats.init).stats.failed = Stats.init.failed ∧
    (upload_file true ⟨"w.gz", 9⟩ false
      ⟨true, ExistsRes.found, true, ⟨none, none, none⟩, true, true⟩
      Stats.init).trace = [Effect.statLocal "w.gz", Effect.headObject "w.gz"] :=
  skip_existing true false ⟨"w.gz", 9⟩
    ⟨true, ExistsRes.found, true, ⟨none, none, none⟩, true, true⟩
    Stats.init rfl rfl

/-- Claim C8, counterexample: with `now = 0` and a three-day window, an entry
whose creation time is one day in the future (`ctime = 86400 > now`) is still
selected by `get_files_for_backup`, although it lies outside the claimed
interval from `now - N` days to `now`: the code checks only the lower bound. -/
theorem get_files_future_ctime_cex :
    (⟨"a.gz", true, 86400⟩ : DirEntry) ∈
      get_files_for_backup true [⟨"a.gz", true, 86400⟩] [".gz"] 0 3 ∧
    ¬ ((86400 : Int) ≤ 0) := by
  decide

/-- Claim C8 (amended): when the directory exists, a file is selected iff it
is a regular file, its `Path.suffix` is in the accepted set (case-sensitive),
and its creation time is at least `now - N` days — the lower boundary is
inclusive, and there is no upper bound, so creation times later than `now`
are also accepted. -/
theorem get_files_membership (entries : List DirEntry)
    (extensions : List String) (now day_delta : Int) (e : DirEntry) :
    e ∈ get_files_for_backup true entries extensions now day_delta ↔
      (e ∈ entries ∧ e.isFile = true ∧ pathSuffix e.name ∈ extensions ∧
        now - day_delta * 86400 ≤ e.ctime) := by
  simp [get_files_for_backup, mem_sortByCtime, List.mem_filter, and_assoc]

/-- Claim C9: in dry-run mode every effect the worker performs is the local
stat or the read-only store existence check — no store upload, no remote
delete, and no local filesystem mutation occurs. -/
theorem upload_file_dry_run_read_only (dA : Bool) (f : FileInfo)
    (env : WorkerEnv) (st : Stats) :
    ∀ e ∈ (upload_file dA f true env st).trace,
      e = Effect.statLocal f.name ∨ e = Effect.headObject f.name := by
  rcases env with ⟨sOk, eRes, uOk, vEnv, dOk, ulOk⟩
  cases sOk <;> cases eRes <;> simp [upload_file]

/-- Witness for claim C9 at a concrete dry-run trace element. -/
theorem upload_file_dry_run_read_only_witness :
    Effect.statLocal "d.gz" = Effect.statLocal "d.gz" ∨
      Effect.statLocal "d.gz" = Effect.headObject "d.gz" :=
  upload_file_dry_run_read_only true ⟨"d.gz", 2⟩
    ⟨true, ExistsRes.notFound, true, ⟨none, none, none⟩, true, true⟩
    Stats.init (Effect.statLocal "d.gz") (by decide)

/-- Claim C10, counterexample: a verified upload whose local unlink raises
increments two of the counters `uploaded`, `skipped`, `failed` in a single
worker execution (`uploaded = 1` and `failed = 1`), contrary to "at most
one". -/
theorem two_counters_incremented_cex :
    incCount Stats.init (upload_file true ⟨"f.gz", 5⟩ false
      ⟨true, ExistsRes.notFound, true, ⟨some "h", some 5, some ⟨"h", 5⟩⟩,
        true, false⟩ Stats.init).stats = 2 ∧
    (upload_file true ⟨"f.gz", 5⟩ false
      ⟨true, ExistsRes.notFound, true, ⟨some "h", some 5, some ⟨"h", 5⟩⟩,
        true, false⟩ Stats.init).stats.uploaded = 1 ∧
    (upload_file true ⟨"f.gz", 5⟩ false
      ⟨true, ExistsRes.notFound, true, ⟨some "h", some 5, some ⟨"h", 5⟩⟩,
        true, false⟩ Stats.init).stats.failed = 1 := by
  decide

/-- Claim C10 (amended): every worker execution makes one of the six updates
of `StatsDeltaOK` — at most one of `uploaded`, `skipped`, `failed` grows,
except that a failing local unlink after a verified upload increments both
`uploaded` and `failed`; `deleted` grows only together with `uploaded`.
Consequently after every run `deleted ≤ uploaded`, and `total_bytes` equals
the sum of the sizes of the files whose processing incremented `uploaded`. -/
theorem worker_and_run_stats_invariants (dA dry : Bool) :
    (∀ (f : FileInfo) (env : WorkerEnv) (st : Stats),
      StatsDeltaOK f st (upload_file dA f dry env st).stats) ∧
    (∀ files : List (FileInfo × WorkerEnv),
      (run_backup dA dry files).1.deleted ≤ (run_backup dA dry files).1.uploaded) ∧
    (∀ files : List (FileInfo × WorkerEnv),
      (run_backup dA dry files).1.total_bytes =
        (uploadedSizes dA dry files Stats.init).sum) := by
  refine ⟨fun f env st => upload_file_delta dA dry f env st,
    fun files => ?_, fun files => ?_⟩
  · have h := foldl_deleted_le dA dry files Stats.init (by simp [Stats.init])
    simpa [run_backup] using h
  · have h := foldl_total_bytes dA dry files Stats.init
    simpa [run_backup, Stats.init] using h

end BackupToS3
